import Mathlib

/-
Verification of mavehgvs/position.py: the extended variant-position grammar
(pos_extended), the VariantPosition constructor, classification predicates,
adjacency, and the comparison operators.

Machine integers are modelled as Int (Python ints are unbounded, so no
wrap-around modelling is needed).  Fallible Python code is modelled with
Except: a raised ValueError becomes `Except.error (PyError.valueError s)`
and a raised TypeError becomes `Except.error PyError.typeError`.
-/

namespace Mavehgvs

/-- Errors observable at the parse / method interface.  `valueError`
carries the offending input string, mirroring the Python message
"invalid variant position string s" which embeds the input. -/
inductive PyError where
  | valueError (offending : String)
  | typeError
deriving DecidableEq

instance {ε α : Type} [DecidableEq ε] [DecidableEq α] : DecidableEq (Except ε α) :=
  fun a b =>
    match a, b with
    | Except.ok x, Except.ok y => decidable_of_iff (x = y) (by simp)
    | Except.error e, Except.error f => decidable_of_iff (e = f) (by simp)
    | Except.ok _, Except.error _ => isFalse (by simp)
    | Except.error _, Except.ok _ => isFalse (by simp)

/-- Modelled from the spec: the shared numeric token `pos` imported from
`mavehgvs.patterns.shared`, whose source file is not part of the sources
here.  Per the spec it is a base-10 digit run that disallows leading zeros
in multi-digit runs and disallows a bare unsigned zero, i.e. the regex
`[1-9][0-9]*`.  `isPosRun l` holds exactly when the character list `l`
matches that token in full. -/
def isPosRun (l : List Char) : Bool :=
  match l with
  | [] => false
  | c :: rest => (c.isDigit && !(c == '0')) && rest.all Char.isDigit

/-- Sign tokens accepted between the two digit runs of an intronic shape. -/
def isSignTok (c : Char) : Bool :=
  c == '+' || c == '-'

/-- Splits a character list at its first sign token: the characters before
it, the sign itself, and the characters after it.  `none` when the list
has no sign token. -/
def splitAtSign (l : List Char) : Option (List Char × Char × List Char) :=
  match l.dropWhile (fun c => !(isSignTok c)) with
  | [] => none
  | s :: rest => some (l.takeWhile (fun c => !(isSignTok c)), s, rest)

/-- Matches the sub-pattern `pos[+-]pos`: two digit runs joined by a sign
token.  Because `pos` contains only digits, a full match forces the split
to be at the first sign token, so `splitAtSign` is exact. -/
def matchIntronRun (l : List Char) : Option (List Char × Char × List Char) :=
  match splitAtSign l with
  | none => none
  | some (p1, s, p2) => if isPosRun p1 && isPosRun p2 then some (p1, s, p2) else none

/-- The named alternative of `pos_extended` that matched, with the captured
substrings of that alternative, mirroring the regex match groups
`position`, `position_intron`, `position_utr` and `position_utr_intron`. -/
inductive PosMatch where
  | position (p : List Char)
  | position_intron (p1 : List Char) (sgn : Char) (p2 : List Char)
  | position_utr (u : Char) (p : List Char)
  | position_utr_intron (u : Char) (p1 : List Char) (sgn : Char) (p2 : List Char)
deriving DecidableEq

/-- Full-string match of `pos_extended` over the input characters.  The
four regex alternatives are mutually exclusive (the first is all digits,
the second starts with a digit and holds a sign token, the last two start
with a UTR symbol, with and without a sign token in the remainder), so the
left-to-right alternation of the regex reduces to this case analysis. -/
def fullmatch (l : List Char) : Option PosMatch :=
  if isPosRun l then some (PosMatch.position l)
  else
    match matchIntronRun l with
    | some (p1, sgn, p2) => some (PosMatch.position_intron p1 sgn p2)
    | none =>
      match l with
      | [] => none
      | c :: rest =>
        if c == '*' || c == '-' then
          if isPosRun rest then some (PosMatch.position_utr c rest)
          else
            match matchIntronRun rest with
            | some (p1, sgn, p2) => some (PosMatch.position_utr_intron c p1 sgn p2)
            | none => none
        else none

/-- Numeric value of a digit run, as computed by Python `int(...)`. -/
def digitsVal (l : List Char) : Int :=
  (l.foldl (fun acc c => acc * 10 + (c.toNat - '0'.toNat)) 0 : Nat)

/-- The VariantPosition record: the four optional attributes set by
`VariantPosition.__init__`. -/
structure VariantPosition where
  position : Option Int
  intronic_position : Option Int
  utr : Option String
  utr_position : Option Int
deriving DecidableEq

/-- Field derivation of `VariantPosition.__init__` from the matched group.
In the `position_utr_intron` branch with a `-` separator the Python code
reads `gdict["position_intron"][1:]`; that group never participated in the
match there, so its value is `None` and slicing it raises a TypeError. -/
def initFields (g : PosMatch) : Except PyError VariantPosition :=
  match g with
  | PosMatch.position p =>
      Except.ok ⟨some (digitsVal p), none, none, none⟩
  | PosMatch.position_intron p1 sgn p2 =>
      if sgn == '+' then
        Except.ok ⟨some (digitsVal p1), some (digitsVal p2), none, none⟩
      else
        Except.ok ⟨some (digitsVal p1), some (-(digitsVal p2)), none, none⟩
  | PosMatch.position_utr u p =>
      Except.ok ⟨none, none, some (if u == '*' then "3p" else "5p"), some (digitsVal p)⟩
  | PosMatch.position_utr_intron u p1 sgn p2 =>
      if sgn == '+' then
        Except.ok ⟨none, some (digitsVal p2), some (if u == '*' then "3p" else "5p"),
          some (digitsVal p1)⟩
      else
        Except.error PyError.typeError

/-- The VariantPosition constructor: full-string match of `pos_extended`,
then field derivation.  A failed match raises ValueError carrying the
offending string. -/
def parse (s : String) : Except PyError VariantPosition :=
  match fullmatch s.data with
  | none => Except.error (PyError.valueError s)
  | some g => initFields g

/-- VariantPosition.is_utr. -/
def is_utr (v : VariantPosition) : Bool :=
  if v.utr ≠ none then true else false

/-- VariantPosition.is_intronic. -/
def is_intronic (v : VariantPosition) : Bool :=
  if v.intronic_position ≠ none then true else false

/-- VariantPosition.is_extended. -/
def is_extended (v : VariantPosition) : Bool :=
  is_intronic v || is_utr v

/-- VariantPosition.is_adjacent.  When neither side is extended the Python
code returns `abs(self.position - other.position) == 1`; otherwise it falls
off the end of the method and implicitly returns None, modelled as
`Except.ok none`.  The `typeError` arm models the comparison of a missing
position, which cannot occur for parsed positions (a non-extended parsed
position always has `position` set). -/
def is_adjacent (a b : VariantPosition) : Except PyError (Option Bool) :=
  if !(is_extended a) && !(is_extended b) then
    match a.position, b.position with
    | some p, some q => Except.ok (some (decide ((p - q).natAbs = 1)))
    | _, _ => Except.error PyError.typeError
  else
    Except.ok none

/-- Comparison of two optional ints, used where the Python code compares
attributes it has already checked to be unequal; for parsed positions both
arguments are always present at those call sites, so the defaulting arms
are unreachable (Python would raise TypeError on them). -/
def oLt (x y : Option Int) : Bool :=
  match x, y with
  | some m, some n => decide (m < n)
  | _, _ => false

/-- The test `x < 0` applied to an optional int; the `none` arm is
unreachable at its call sites inside `intron_lt` (guarded by the
equality test), where Python would raise TypeError. -/
def optIsNeg (x : Option Int) : Bool :=
  match x with
  | some n => decide (n < 0)
  | none => false

/-- The local function intron_lt of VariantPosition.__lt__, line for line:
equal offsets (including both absent) give False; an absent offset on one
side answers with the sign test of the other side; otherwise the two
present offsets are compared numerically. -/
def intron_lt (a b : VariantPosition) : Bool :=
  if a.intronic_position = b.intronic_position then false
  else if a.intronic_position = none then optIsNeg b.intronic_position
  else if b.intronic_position = none then optIsNeg a.intronic_position
  else oLt a.intronic_position b.intronic_position

/-- VariantPosition.__lt__.  The value `none` models the fall-through at
the end of the unequal-UTR branch, where the Python method returns None
because no `return` statement was reached. -/
def lt_impl (a b : VariantPosition) : Option Bool :=
  if a.utr = b.utr then
    if a.utr ≠ none then
      if a.utr_position ≠ b.utr_position then some (oLt a.utr_position b.utr_position)
      else some (intron_lt a b)
    else
      if a.position ≠ b.position then some (oLt a.position b.position)
      else some (intron_lt a b)
  else
    if a.utr = some "5p" ∨ b.utr = some "3p" then some true
    else if a.utr = some "3p" ∨ b.utr = some "5p" then some false
    else none

/-- VariantPosition.__eq__: pairwise equality of the four-field tuple. -/
def vp_eq (a b : VariantPosition) : Bool :=
  decide (a.position = b.position ∧ a.intronic_position = b.intronic_position ∧
    a.utr = b.utr ∧ a.utr_position = b.utr_position)

/-- Discriminator for the error kind observable at the interface. -/
def isValueErr : PyError → Bool
  | PyError.valueError _ => true
  | PyError.typeError => false

/-- The four populated-field combinations a successful parse can produce,
together with the possible values of the `utr` field. -/
def ParsedShape (v : VariantPosition) : Prop :=
  ((∃ n, v.position = some n) ∧ v.intronic_position = none ∧ v.utr = none ∧
    v.utr_position = none)
  ∨ ((∃ n, v.position = some n) ∧ (∃ i, v.intronic_position = some i) ∧ v.utr = none ∧
    v.utr_position = none)
  ∨ (v.position = none ∧ v.intronic_position = none ∧
    (v.utr = some "5p" ∨ v.utr = some "3p") ∧ (∃ u, v.utr_position = some u))
  ∨ (v.position = none ∧ (∃ i, v.intronic_position = some i) ∧
    (v.utr = some "5p" ∨ v.utr = some "3p") ∧ (∃ u, v.utr_position = some u))

theorem initFields_shape (g : PosMatch) (v : VariantPosition)
    (h : initFields g = Except.ok v) : ParsedShape v := by
  cases g with
  | position p =>
      simp only [initFields, Except.ok.injEq] at h
      subst h
      exact Or.inl ⟨⟨digitsVal p, rfl⟩, rfl, rfl, rfl⟩
  | position_intron p1 sgn p2 =>
      simp only [initFields] at h
      split at h <;>
        · simp only [Except.ok.injEq] at h
          subst h
          exact Or.inr (Or.inl ⟨⟨_, rfl⟩, ⟨_, rfl⟩, rfl, rfl⟩)
  | position_utr u p =>
      simp only [initFields, Except.ok.injEq] at h
      subst h
      refine Or.inr (Or.inr (Or.inl ⟨rfl, rfl, ?_, ⟨_, rfl⟩⟩))
      cases hu : (u == '*') <;> simp [hu]
  | position_utr_intron u p1 sgn p2 =>
      simp only [initFields] at h
      split at h
      · simp only [Except.ok.injEq] at h
        subst h
        refine Or.inr (Or.inr (Or.inr ⟨rfl, ⟨_, rfl⟩, ?_, ⟨_, rfl⟩⟩))
        cases hu : (u == '*') <;> simp [hu]
      · exact absurd h (by simp)

theorem parse_shape (s : String) (v : VariantPosition)
    (h : parse s = Except.ok v) : ParsedShape v := by
  unfold parse at h
  cases hm : fullmatch s.data with
  | none => rw [hm] at h; exact absurd h (by simp)
  | some g => rw [hm] at h; exact initFields_shape g v h

theorem shape_utr {v : VariantPosition} (h : ParsedShape v) :
    v.utr = none ∨ v.utr = some "5p" ∨ v.utr = some "3p" := by
  rcases h with ⟨_, _, h3, _⟩ | ⟨_, _, h3, _⟩ | ⟨_, _, h3, _⟩ | ⟨_, _, h3, _⟩
  · exact Or.inl h3
  · exact Or.inl h3
  · rcases h3 with h3 | h3
    · exact Or.inr (Or.inl h3)
    · exact Or.inr (Or.inr h3)
  · rcases h3 with h3 | h3
    · exact Or.inr (Or.inl h3)
    · exact Or.inr (Or.inr h3)

theorem lt_impl_isSome_of_utr_eq (a b : VariantPosition) (h : a.utr = b.utr) :
    (lt_impl a b).isSome = true := by
  unfold lt_impl
  rw [if_pos h]
  split
  · split <;> rfl
  · split <;> rfl

/-- Rank of a UTR side in the order FivePrime < (no UTR) < ThreePrime,
following the wording of the spec. -/
def utrRank (u : Option String) : Nat :=
  match u with
  | none => 1
  | some s => if s = "5p" then 0 else 2

/-- The intronic tie-break rule as the spec words it: equal offsets
(including both absent) give false; an absent offset on the left makes the
result the sign test of the right offset; symmetrically for an absent
right offset; two present, unequal offsets are compared numerically. -/
def intron_lt_tiebreak_spec (a b : VariantPosition) : Bool :=
  match a.intronic_position, b.intronic_position with
  | none, none => false
  | none, some bo => decide (bo < 0)
  | some ao, none => decide (ao < 0)
  | some ao, some bo => decide (ao ≠ bo) && decide (ao < bo)

/-- Claim C1: the spec says every UTR-intronic input (leading `*` or `-`,
digits, a sign token, digits) parses, with the intronic offset negated when
the sign token is `-`; in particular "*10-5" should yield utr 3p,
utr_position 10, intronic_position -5.  The code disagrees: the `-` branch
of the `position_utr_intron` case reads the unmatched `position_intron`
group, which is None, and slicing None raises a TypeError, so "*10-5"
fails while the `+` form "*10+5" parses as expected.  This theorem records
both behaviors at concrete inputs. -/
theorem c1_utr_intron_minus_fails :
    parse "*10+5" = Except.ok ⟨none, some 5, some "3p", some 10⟩ ∧
    parse "*10-5" = Except.error PyError.typeError := by decide

/-- Claim C2: the spec says parsing either fully succeeds or fails with the
single user-facing InvalidPositionSyntax error (a ValueError carrying the
offending string).  The code disagrees: the input "*10-5" escapes with a
TypeError, which is not the ValueError error kind. -/
theorem c2_typeerror_escapes_parse :
    parse "*10-5" = Except.error PyError.typeError ∧
    isValueErr PyError.typeError = false := by decide

/-- Claim C3: the spec says less_than and equals form a strict total order,
so a < b and b < a never both hold.  The code disagrees: for a = "88" and
b = "88-7" both comparisons return True while the two positions are not
equal, violating asymmetry.  This theorem records the violation at those
concrete parsed inputs. -/
theorem c3_asymmetry_violated :
    parse "88" = Except.ok ⟨some 88, none, none, none⟩ ∧
    parse "88-7" = Except.ok ⟨some 88, some (-7), none, none⟩ ∧
    lt_impl ⟨some 88, none, none, none⟩ ⟨some 88, some (-7), none, none⟩ = some true ∧
    lt_impl ⟨some 88, some (-7), none, none⟩ ⟨some 88, none, none, none⟩ = some true ∧
    vp_eq ⟨some 88, none, none, none⟩ ⟨some 88, some (-7), none, none⟩ = false := by decide

/-- Claim C4: the spec says parse("88-7") < parse("88") and
parse("88") < parse("88+7") both hold.  The code disagrees on the second:
the absent-offset arm of intron_lt tests whether the other offset is
negative, so the boundary position "88" is not less than "88+7" (the
comparison returns False).  This theorem records the code behavior at the
concrete inputs of the claim. -/
theorem c4_boundary_order_broken :
    parse "88" = Except.ok ⟨some 88, none, none, none⟩ ∧
    parse "88+7" = Except.ok ⟨some 88, some 7, none, none⟩ ∧
    lt_impl ⟨some 88, some (-7), none, none⟩ ⟨some 88, none, none, none⟩ = some true ∧
    lt_impl ⟨some 88, none, none, none⟩ ⟨some 88, some 7, none, none⟩ = some false := by
  decide

/-- Claim C5: the intronic tie-break rule behaves exactly as the spec
words it: equal offsets (including both absent) give false; when the left
offset is absent the result is whether the right offset is negative;
symmetrically when the right offset is absent; otherwise the two present,
unequal signed offsets are compared numerically.  `intron_lt` is the
source code embedding, `intron_lt_tiebreak_spec` transcribes the claim,
and the two agree on every pair of positions. -/
theorem c5_intron_tiebreak_as_specified :
    ∀ a b : VariantPosition, intron_lt a b = intron_lt_tiebreak_spec a b := by
  intro a b
  unfold intron_lt intron_lt_tiebreak_spec optIsNeg oLt
  rcases ha : a.intronic_position with _ | ao <;>
    rcases hb : b.intronic_position with _ | bo <;> simp [ha, hb]

/-- Claim C6: for parsed positions with different UTR sides, less_than
orders them as FivePrime < (no UTR) < ThreePrime; `utrRank` encodes that
order and the comparison returns exactly the rank test. -/
theorem c6_utr_side_order (s t : String) (a b : VariantPosition)
    (ha : parse s = Except.ok a) (hb : parse t = Except.ok b)
    (hne : a.utr ≠ b.utr) :
    lt_impl a b = some (decide (utrRank a.utr < utrRank b.utr)) := by
  rcases shape_utr (parse_shape s a ha) with h1 | h1 | h1 <;>
    rcases shape_utr (parse_shape t b hb) with h2 | h2 | h2 <;>
      first
        | exact absurd (h1.trans h2.symm) hne
        | simp [lt_impl, utrRank, h1, h2]

theorem c6_utr_side_order_witness :
    lt_impl ⟨none, none, some "5p", some 12⟩ ⟨some 5, none, none, none⟩ =
      some (decide (utrRank (some "5p") < utrRank none)) :=
  c6_utr_side_order "-12" "5" ⟨none, none, some "5p", some 12⟩ ⟨some 5, none, none, none⟩
    (by decide) (by decide) (by decide)

/-- Claim C7: the strings "", "12a", "0", "+5", "12++5" and "**3" are all
rejected by the whole-string grammar match and fail with the ValueError
carrying the offending string. -/
theorem c7_grammar_rejections :
    parse "" = Except.error (PyError.valueError "") ∧
    parse "12a" = Except.error (PyError.valueError "12a") ∧
    parse "0" = Except.error (PyError.valueError "0") ∧
    parse "+5" = Except.error (PyError.valueError "+5") ∧
    parse "12++5" = Except.error (PyError.valueError "12++5") ∧
    parse "**3" = Except.error (PyError.valueError "**3") := by decide

/-- Claim C8: every successfully parsed VariantPosition populates exactly
one of the four field combinations: position only; position and
intronic_position; utr and utr_position; utr, utr_position and
intronic_position. -/
theorem c8_field_combinations (s : String) (v : VariantPosition)
    (h : parse s = Except.ok v) :
    (v.position ≠ none ∧ v.intronic_position = none ∧ v.utr = none ∧ v.utr_position = none)
    ∨ (v.position ≠ none ∧ v.intronic_position ≠ none ∧ v.utr = none ∧
      v.utr_position = none)
    ∨ (v.position = none ∧ v.intronic_position = none ∧ v.utr ≠ none ∧
      v.utr_position ≠ none)
    ∨ (v.position = none ∧ v.intronic_position ≠ none ∧ v.utr ≠ none ∧
      v.utr_position ≠ none) := by
  rcases parse_shape s v h with ⟨⟨n, h1⟩, h2, h3, h4⟩ | ⟨⟨n, h1⟩, ⟨i, h2⟩, h3, h4⟩ |
    ⟨h1, h2, h3, u, h4⟩ | ⟨h1, ⟨i, h2⟩, h3, u, h4⟩
  · exact Or.inl ⟨by simp [h1], h2, h3, h4⟩
  · exact Or.inr (Or.inl ⟨by simp [h1], by simp [h2], h3, h4⟩)
  · refine Or.inr (Or.inr (Or.inl ⟨h1, h2, ?_, by simp [h4]⟩))
    rcases h3 with h3 | h3 <;> simp [h3]
  · refine Or.inr (Or.inr (Or.inr ⟨h1, by simp [h2], ?_, by simp [h4]⟩))
    rcases h3 with h3 | h3 <;> simp [h3]

theorem c8_field_combinations_witness :
    ((⟨some 88, none, none, none⟩ : VariantPosition).position ≠ none ∧
      (⟨some 88, none, none, none⟩ : VariantPosition).intronic_position = none ∧
      (⟨some 88, none, none, none⟩ : VariantPosition).utr = none ∧
      (⟨some 88, none, none, none⟩ : VariantPosition).utr_position = none)
    ∨ ((⟨some 88, none, none, none⟩ : VariantPosition).position ≠ none ∧
      (⟨some 88, none, none, none⟩ : VariantPosition).intronic_position ≠ none ∧
      (⟨some 88, none, none, none⟩ : VariantPosition).utr = none ∧
      (⟨some 88, none, none, none⟩ : VariantPosition).utr_position = none)
    ∨ ((⟨some 88, none, none, none⟩ : VariantPosition).position = none ∧
      (⟨some 88, none, none, none⟩ : VariantPosition).intronic_position = none ∧
      (⟨some 88, none, none, none⟩ : VariantPosition).utr ≠ none ∧
      (⟨some 88, none, none, none⟩ : VariantPosition).utr_position ≠ none)
    ∨ ((⟨some 88, none, none, none⟩ : VariantPosition).position = none ∧
      (⟨some 88, none, none, none⟩ : VariantPosition).intronic_position ≠ none ∧
      (⟨some 88, none, none, none⟩ : VariantPosition).utr ≠ none ∧
      (⟨some 88, none, none, none⟩ : VariantPosition).utr_position ≠ none) :=
  c8_field_combinations "88" ⟨some 88, none, none, none⟩ (by decide)

/-- Claim C9: whenever at least one of the two positions uses the extended
syntax, is_adjacent returns the Python None (modelled `Except.ok none`),
a value distinct from both booleans, and raises no exception. -/
theorem c9_adjacent_extended_none (a b : VariantPosition)
    (h : is_extended a = true ∨ is_extended b = true) :
    is_adjacent a b = Except.ok none := by
  unfold is_adjacent
  rcases h with h | h <;> simp [h]

theorem c9_adjacent_extended_none_witness :
    is_adjacent ⟨some 88, some 7, none, none⟩ ⟨some 5, none, none, none⟩ =
      Except.ok none :=
  c9_adjacent_extended_none ⟨some 88, some 7, none, none⟩ ⟨some 5, none, none, none⟩
    (Or.inl (by decide))

/-- Claim C10: the less-than comparison is total on parsed positions: for
every pair of successfully parsed VariantPositions, every arm of the
UTR-side case analysis reaches an explicit return, so the method yields a
boolean and never falls through (the fall-through is modelled as the
`none` value of `lt_impl`). -/
theorem c10_lt_total (s t : String) (a b : VariantPosition)
    (ha : parse s = Except.ok a) (hb : parse t = Except.ok b) :
    (lt_impl a b).isSome = true := by
  rcases shape_utr (parse_shape s a ha) with h1 | h1 | h1 <;>
    rcases shape_utr (parse_shape t b hb) with h2 | h2 | h2 <;>
      first
        | exact lt_impl_isSome_of_utr_eq a b (h1.trans h2.symm)
        | simp [lt_impl, h1, h2]

theorem c10_lt_total_witness :
    (lt_impl ⟨some 88, none, none, none⟩ ⟨none, none, some "3p", some 12⟩).isSome = true :=
  c10_lt_total "88" "*12" ⟨some 88, none, none, none⟩ ⟨none, none, some "3p", some 12⟩
    (by decide) (by decide)

end Mavehgvs
